import Mathlib

/-!
Shallow embedding of `review_analyzer/reviews/analysis.py`.

The three external machine-learning services are modelled as explicit
oracle arguments:
  * the sentiment pipeline as `String → Option String` (the label of the
    first result, `none` when the call raises),
  * the summarizer as `String → Option String` (the summary text, `none`
    when the call raises),
  * the Gemini generative call as `String → Option GeminiResponse`
    (`none` when the call raises), together with a `Bool` recording
    whether the model handle was configured at startup.

Python string operations are modelled structurally over the character
list of a `String` (Python slices, splits and strips by code point, which
matches `List Char`).  Python float formatting of the mean is modelled
exactly: the exact fraction is first rounded to the nearest binary64
double (half to even on a 53-bit significand) and the double's exact
value is then rounded half-to-even at two decimals.
-/

namespace ReviewAnalyzer

/-- The code points of a string, the carrier of all Python string ops. -/
def chars (s : String) : List Char := s.data

/-- Rebuild a string from code points. -/
def ofChars (l : List Char) : String := ⟨l⟩

/-- Python `needle in haystack`: substring containment. -/
def is_sub : List Char → List Char → Bool
  | needle, [] => needle.isEmpty
  | needle, c :: cs => needle.isPrefixOf (c :: cs) || is_sub needle cs

/-- Python `s.lower()` (ASCII case folding, as in `Char.toLower`). -/
def py_lower (s : String) : String := ofChars ((chars s).map Char.toLower)

/-- Python `s.strip()` on a character list: drop whitespace at both ends. -/
def py_strip_chars (l : List Char) : List Char :=
  ((l.dropWhile Char.isWhitespace).reverse.dropWhile Char.isWhitespace).reverse

/-- Python `s.strip()`. -/
def py_strip (s : String) : String := ofChars (py_strip_chars (chars s))

/-- Python `s[:n]`: the first `n` code points. -/
def py_take (n : Nat) (s : String) : String := ofChars ((chars s).take n)

/-- Splitting a character list at every character satisfying `p`,
keeping empty fragments, as `re.split` on a single-character class and
Python `str.split(sep)` do. -/
def split_chars (p : Char → Bool) : List Char → List (List Char)
  | [] => [[]]
  | c :: cs =>
    let r := split_chars p cs
    if p c then [] :: r
    else
      match r with
      | [] => [[c]]
      | h :: t => (c :: h) :: t

/-- Python `s.split()` with no separator: split on whitespace and drop
empty fragments. -/
def py_split_ws (s : String) : List (List Char) :=
  (split_chars Char.isWhitespace (chars s)).filter (fun t => !t.isEmpty)

/-- Value of a digit string (caller checks all characters are digits). -/
def digits_value (ds : List Char) : Nat :=
  ds.foldl (fun acc c => acc * 10 + (c.toNat - 48)) 0

/-- Python `int(tok)` on a whitespace-free token: an optional sign
followed by at least one digit, anything else raises (`none`). -/
def py_int_of_chars : List Char → Option Int
  | '-' :: ds => if !ds.isEmpty && ds.all Char.isDigit then some (-(digits_value ds : Int)) else none
  | '+' :: ds => if !ds.isEmpty && ds.all Char.isDigit then some (digits_value ds : Int) else none
  | ds => if !ds.isEmpty && ds.all Char.isDigit then some (digits_value ds : Int) else none

/-- Python `s.startswith(c)` for a single-character prefix. -/
def starts_with_char (c : Char) (s : String) : Bool :=
  match chars s with
  | [] => false
  | a :: _ => a == c

/-- `NEGATIVE_KEYWORDS` from `analysis.py` lines 13-17. -/
def NEGATIVE_KEYWORDS : List String :=
  ["broken", "damaged", "defective", "scratched", "wrong size",
   "late", "delay", "missing", "fake", "cheap", "scam", "fraud",
   "expensive", "not worth", "refund", "waste of money"]

/-- `any(kw in s_clean.lower() for kw in NEGATIVE_KEYWORDS)`. -/
def has_negative_keyword (s_clean : String) : Bool :=
  NEGATIVE_KEYWORDS.any (fun kw => is_sub (chars kw) (chars (py_lower s_clean)))

/-- `re.split(r'[.!?]', text)` followed by `s.strip()` on each fragment:
the trimmed sentence fragments of one review text (empties kept, as the
source filters them one step later). -/
def sentence_fragments (text : String) : List String :=
  (split_chars (fun c => c == '.' || c == '!' || c == '?') (chars text)).map
    (fun f => ofChars (py_strip_chars f))

/-- `filter_positive_sentences` (analysis.py lines 48-56). -/
def filter_positive_sentences (feedback_list : List String) : List String :=
  feedback_list.flatMap (fun text =>
    (sentence_fragments text).filter
      (fun s_clean => !(chars s_clean).isEmpty && !has_negative_keyword s_clean))

/-- `filter_negative_sentences` (analysis.py lines 58-66). -/
def filter_negative_sentences (feedback_list : List String) : List String :=
  feedback_list.flatMap (fun text =>
    (sentence_fragments text).filter
      (fun s_clean => !(chars s_clean).isEmpty && has_negative_keyword s_clean))

/-- `summarize_praises` (analysis.py lines 68-79); the summarizer call is
the oracle argument. -/
def summarize_praises (summarizer : String → Option String)
    (feedback_list : List String) : String :=
  let positive_sentences := filter_positive_sentences feedback_list
  if positive_sentences.isEmpty then "None"
  else
    match summarizer (String.intercalate ". " positive_sentences) with
    | some summary_text => py_strip summary_text
    | none => "Could not generate summary."

/-- `summarize_pain_points` (analysis.py lines 81-92). -/
def summarize_pain_points (summarizer : String → Option String)
    (feedback_list : List String) : String :=
  let negative_sentences := filter_negative_sentences feedback_list
  if negative_sentences.isEmpty then "None"
  else
    match summarizer (String.intercalate ". " negative_sentences) with
    | some summary_text => py_strip summary_text
    | none => "Could not generate summary."

/-- The visible shape of a Gemini response: `.parts` (empty when the
response is blocked), the truthy part of `.prompt_feedback.block_reason`
(`none` when falsy/absent), and `.text`. -/
structure GeminiResponse where
  parts : List String
  block_reason : Option String
  text : String
deriving DecidableEq

/-- `"No specific praise points found."` (analysis.py line 101). -/
def NO_PRAISE_MSG : String := "No specific praise points found."

/-- `"No specific complaint points found."` (analysis.py line 102). -/
def NO_COMPLAINTS_MSG : String := "No specific complaint points found."

/-- `praise and praise[0] != NO_PRAISE_MSG` (analysis.py line 104). -/
def has_specific_praise (praise : List String) : Bool :=
  match praise with
  | [] => false
  | p :: _ => p != NO_PRAISE_MSG

/-- `complaints and complaints[0] != NO_COMPLAINTS_MSG` (line 105). -/
def has_specific_complaints (complaints : List String) : Bool :=
  match complaints with
  | [] => false
  | c :: _ => c != NO_COMPLAINTS_MSG

/-- The prompt built in analysis.py lines 110-121. -/
def build_gemini_prompt (praise complaints : List String) : String :=
  let prompt_parts := ["Analyze the following summarized customer feedback and provide a simple to-do list with short, direct action points using easy-to-understand words."]
  let prompt_parts := if has_specific_praise praise then
      prompt_parts ++ ["\nPositive Summary:\n" ++ String.intercalate "\n" praise]
    else prompt_parts
  let prompt_parts := if has_specific_complaints complaints then
      prompt_parts ++ ["\nNegative Summary:\n" ++ String.intercalate "\n" complaints]
    else prompt_parts
  String.intercalate "\n"
    (prompt_parts ++ ["\nActionable To-Do List (Start each point with \x27*\x27):"])

/-- Bullet extraction from the response text (analysis.py lines 129-130):
keep the lines whose stripped form starts with `*` or `-`, strip each,
then strip the leading `*`, `-` and space characters and strip again. -/
def parse_bullet_points (recommendation_text : String) : List String :=
  let lines := (split_chars (fun c => c == '\n') (chars recommendation_text)).map ofChars
  let bullet_points := (lines.filter
      (fun line => starts_with_char '*' (py_strip line) ||
        starts_with_char '-' (py_strip line))).map py_strip
  bullet_points.map (fun point =>
    py_strip (ofChars ((chars point).dropWhile (fun c => c == '*' || c == '-' || c == ' '))))

/-- `generate_recommendation_with_gemini` (analysis.py lines 97-134).
`gemini_model` records whether the model handle is configured (line 44
sets it to `None` when no API key is found); `generate_content` is the
network call, `none` when it raises. -/
def generate_recommendation_with_gemini (gemini_model : Bool)
    (generate_content : String → Option GeminiResponse)
    (praise complaints : List String) : List String :=
  if !gemini_model then
    ["Gemini model is not available. Please check API key configuration."]
  else if !has_specific_praise praise && !has_specific_complaints complaints then
    ["Not enough specific feedback was provided to generate a recommendation."]
  else
    match generate_content (build_gemini_prompt praise complaints) with
    | none => ["Could not generate AI recommendation due to an API error."]
    | some response =>
      if response.parts.isEmpty then
        match response.block_reason with
        | some reason =>
          ["Recommendation could not be generated due to a content safety block (" ++
            reason ++ ")."]
        | none => ["Recommendation could not be generated."]
      else
        let recommendation_text := py_strip response.text
        let cleaned_points := parse_bullet_points recommendation_text
        if cleaned_points.isEmpty then [recommendation_text] else cleaned_points

/-- `int(result[0]["label"].split()[0])`: first whitespace-separated
token of the label parsed as an integer; `none` when indexing or parsing
raises. -/
def parse_label (label : String) : Option Int :=
  match py_split_ws label with
  | [] => none
  | tok :: _ => py_int_of_chars tok

/-- One iteration of the classification loop (analysis.py lines 150-151):
truncate to 512 code points, call the sentiment pipeline, parse the
rating; `none` when the call or the parse raises. -/
def classify_review (sentiment_pipeline : String → Option String)
    (review : String) : Option Int :=
  match sentiment_pipeline (py_take 512 review) with
  | none => none
  | some label => parse_label label

/-- The classification loop (analysis.py lines 147-159): ratings of the
successfully classified reviews, the positive bucket (rating ≥ 4) and the
negative bucket (the rest), all in input order; failed reviews are
skipped. -/
def classify_reviews (sentiment_pipeline : String → Option String) :
    List String → List Int × List String × List String
  | [] => ([], [], [])
  | review :: rest =>
    let r := classify_reviews sentiment_pipeline rest
    match classify_review sentiment_pipeline review with
    | none => r
    | some rating =>
      if rating ≥ 4 then (rating :: r.1, review :: r.2.1, r.2.2)
      else (rating :: r.1, r.2.1, review :: r.2.2)

/-- Round the exact rational `t / n` to the nearest integer, ties to
even, as Python float formatting does.  `Int.fdiv` is floor division, so
`r = t - q * n` lies in `[0, n)` and comparing `2 * r` with `n` compares
the fractional part with one half. -/
def round_half_even_scaled (t : Int) (n : Nat) : Int :=
  let q := Int.fdiv t n
  let r := t - q * n
  if 2 * r < (n : Int) then q
  else if (n : Int) < 2 * r then q + 1
  else if q % 2 = 0 then q else q + 1

/-- Two-digit zero-padded rendering of a value below 100. -/
def pad_two (r : Nat) : String := (if r < 10 then "0" else "") ++ toString r

/-- Number of binary digits of `n` (0 for 0), by fuel recursion so the
kernel can evaluate it. -/
def bitlen_aux : Nat → Nat → Nat
  | 0, _ => 0
  | fuel + 1, n => if n = 0 then 0 else bitlen_aux fuel (n / 2) + 1

/-- Number of binary digits of `n` (0 for 0). -/
def bitlen (n : Nat) : Nat := bitlen_aux n n

/-- The integer `e` with `2 ^ e ≤ p / n < 2 ^ (e + 1)`, for `p, n ≥ 1`:
the bit-length difference puts `p / n` in `(2 ^ (e0 - 1), 2 ^ (e0 + 1))`
and one exact comparison settles which half it is in. -/
def floor_log2 (p n : Nat) : Int :=
  let e0 : Int := (bitlen p : Int) - (bitlen n : Int)
  let ge : Bool :=
    if 0 ≤ e0 then decide (n * 2 ^ e0.toNat ≤ p) else decide (n ≤ p * 2 ^ (-e0).toNat)
  if ge then e0 else e0 - 1

/-- The IEEE-754 binary64 value nearest to `p / n` (round half to even on
a 53-bit significand), for `p, n ≥ 1`, returned as `(m, k)` with value
`m * 2 ^ k` and `2 ^ 52 ≤ m ≤ 2 ^ 53`.  Exponent overflow and subnormals
are not modelled; they are unreachable for means of star ratings. -/
def to_double_scaled (p n : Nat) : Nat × Int :=
  let e := floor_log2 p n
  let shift : Int := 52 - e
  let m :=
    if 0 ≤ shift then round_half_even_scaled ((p * 2 ^ shift.toNat : Nat) : Int) n
    else round_half_even_scaled (p : Int) (n * 2 ^ (-shift).toNat)
  (m.toNat, -shift)

/-- `f"{statistics.mean(ratings):.2f}"` modelled exactly: `statistics.mean`
converts the exact fraction `sum / length` to the nearest binary double,
and `%.2f` prints that double's exact value scaled by 100 and rounded
half-to-even, with exactly two decimal places. -/
def format_mean (ratings : List Int) : String :=
  let s := ratings.sum
  let r : Int :=
    if s = 0 then 0
    else
      let md := to_double_scaled s.natAbs ratings.length
      let mag : Int :=
        if 0 ≤ md.2 then (100 * md.1 * 2 ^ md.2.toNat : Nat)
        else round_half_even_scaled ((100 * md.1 : Nat) : Int) (2 ^ (-md.2).toNat)
      if s < 0 then -mag else mag
  let sign := if r < 0 then "-" else ""
  let m := r.natAbs
  sign ++ toString (m / 100) ++ "." ++ pad_two (m % 100)

/-- `analyze_reviews_with_ai` can put either a bare string or a list of
strings in `actionable_recommendation`. -/
inductive StrOrList where
  | str : String → StrOrList
  | list : List String → StrOrList
deriving DecidableEq

/-- The record returned by `analyze_reviews_with_ai`. -/
structure AnalysisResult where
  top_praise_points : List String
  top_complaint_points : List String
  overall_rating_suggestion : String
  actionable_recommendation : StrOrList
deriving DecidableEq

/-- `analyze_reviews_with_ai` (analysis.py lines 139-176), with the three
external services passed as oracles. -/
def analyze_reviews_with_ai (sentiment_pipeline summarizer : String → Option String)
    (gemini_model : Bool) (generate_content : String → Option GeminiResponse)
    (reviews_text : List String) : AnalysisResult :=
  if reviews_text.isEmpty then
    AnalysisResult.mk [] [] "N/A" (StrOrList.str "N/A")
  else
    let r := classify_reviews sentiment_pipeline reviews_text
    let predicted_ratings := r.1
    let positive_reviews := r.2.1
    let negative_reviews := r.2.2
    let overall_rating_suggestion :=
      if !predicted_ratings.isEmpty then
        "Approximately " ++ format_mean predicted_ratings ++ " out of 5 stars."
      else "Could not determine rating."
    let summarized_praise := summarize_praises summarizer positive_reviews
    let summarized_complaints := summarize_pain_points summarizer negative_reviews
    let top_praise_points :=
      if summarized_praise != "None" then [summarized_praise]
      else ["No specific praise points found."]
    let top_complaint_points :=
      if summarized_complaints != "None" then [summarized_complaints]
      else ["No specific complaint points found."]
    let actionable_recommendation := generate_recommendation_with_gemini
      gemini_model generate_content top_praise_points top_complaint_points
    AnalysisResult.mk top_praise_points top_complaint_points overall_rating_suggestion
      (StrOrList.list actionable_recommendation)

/-- True when the review classifies successfully with rating ≥ 4. -/
def rated_positive (sentiment_pipeline : String → Option String) (review : String) : Bool :=
  match classify_review sentiment_pipeline review with
  | some rating => decide (rating ≥ 4)
  | none => false

/-- True when the review classifies successfully with rating < 4. -/
def rated_negative (sentiment_pipeline : String → Option String) (review : String) : Bool :=
  match classify_review sentiment_pipeline review with
  | some rating => decide (rating < 4)
  | none => false

/-- The classification loop returns the ratings of the successfully
classified reviews in order, and the two buckets are the order-preserving
filters of the input by predicted polarity. -/
theorem classify_reviews_spec (sp : String → Option String) (l : List String) :
    classify_reviews sp l =
      (l.filterMap (classify_review sp),
        l.filter (rated_positive sp), l.filter (rated_negative sp)) := by
  induction l with
  | nil => rfl
  | cons review rest ih =>
    simp only [classify_reviews, ih, List.filterMap_cons, List.filter_cons]
    cases h : classify_review sp review with
    | none => simp [rated_positive, rated_negative, h]
    | some rating =>
      by_cases h4 : rating ≥ 4
      · simp [rated_positive, rated_negative, h, h4, not_lt.mpr h4]
      · simp [rated_positive, rated_negative, h, h4, lt_of_not_ge h4]

/-- C2: every review whose classification call succeeds lands in exactly
one bucket — positive when its rating is ≥ 4, otherwise negative — and
its rating is collected (the rating list is the `filterMap` of the
classifier over the input); a review whose classification fails is in
neither bucket and contributes no rating. -/
theorem bucket_partition (sp : String → Option String) (reviews : List String)
    (review : String) (hmem : review ∈ reviews) :
    ((classify_reviews sp reviews).1 = reviews.filterMap (classify_review sp)) ∧
    (∀ rating, classify_review sp review = some rating →
      (rating ≥ 4 → review ∈ (classify_reviews sp reviews).2.1 ∧
        review ∉ (classify_reviews sp reviews).2.2) ∧
      (rating < 4 → review ∈ (classify_reviews sp reviews).2.2 ∧
        review ∉ (classify_reviews sp reviews).2.1)) ∧
    (classify_review sp review = none →
      review ∉ (classify_reviews sp reviews).2.1 ∧
        review ∉ (classify_reviews sp reviews).2.2) := by
  rw [classify_reviews_spec]
  refine ⟨rfl, ?_, ?_⟩
  · intro rating h
    constructor
    · intro h4
      constructor
      · exact List.mem_filter.mpr ⟨hmem, by simp [rated_positive, h, h4]⟩
      · intro hin
        have := (List.mem_filter.mp hin).2
        simp [rated_negative, h, not_lt.mpr h4] at this
    · intro h4
      constructor
      · exact List.mem_filter.mpr ⟨hmem, by simp [rated_negative, h, h4]⟩
      · intro hin
        have := (List.mem_filter.mp hin).2
        simp [rated_positive, h, not_le.mpr h4] at this
  · intro h
    constructor
    · intro hin
      have := (List.mem_filter.mp hin).2
      simp [rated_positive, h] at this
    · intro hin
      have := (List.mem_filter.mp hin).2
      simp [rated_negative, h] at this

/-- Witness for C2 at a concrete classifier and review list. -/
theorem bucket_partition_witness :
    "a" ∈ (classify_reviews (fun _ => some "5 stars") ["a"]).2.1 ∧
    "a" ∉ (classify_reviews (fun _ => some "5 stars") ["a"]).2.2 :=
  ((bucket_partition (fun _ => some "5 stars") ["a"] "a" (by simp)).2.1 5 (by decide)).1
    (by decide)

/-- C3: the classifier adapter depends only on the first 512 code points
of the review, hands the truncation to the classification call, parses
the first whitespace-separated token of the returned label as the star
rating, and on any failure skips that single review while the loop
continues unchanged on the rest. -/
theorem classifier_contract :
    (∀ (sp : String → Option String) (r₁ r₂ : String),
      py_take 512 r₁ = py_take 512 r₂ →
      classify_review sp r₁ = classify_review sp r₂) ∧
    (∀ (sp : String → Option String) (r label : String),
      sp (py_take 512 r) = some label → classify_review sp r = parse_label label) ∧
    (∀ (label : String) (tok : List Char) (rest : List (List Char)),
      py_split_ws label = tok :: rest → parse_label label = py_int_of_chars tok) ∧
    (∀ (sp : String → Option String) (pre post : List String) (r : String),
      classify_review sp r = none →
      classify_reviews sp (pre ++ r :: post) = classify_reviews sp (pre ++ post)) := by
  refine ⟨?_, ?_, ?_, ?_⟩
  · intro sp r₁ r₂ h
    simp only [classify_review, h]
  · intro sp r label h
    simp only [classify_review, h]
  · intro label tok rest h
    simp only [parse_label, h]
  · intro sp pre post r h
    induction pre with
    | nil => simp only [List.nil_append, classify_reviews, h]
    | cons p ps ih => simp only [List.cons_append, classify_reviews, List.append_eq, ih]

/-- Witness for C3 at a concrete oracle, label and review list. -/
theorem classifier_contract_witness :
    classify_review (fun _ => some "4 stars") "hi" = parse_label "4 stars" ∧
    classify_reviews (fun _ => none) (["a"] ++ "b" :: []) =
      classify_reviews (fun _ => none) (["a"] ++ []) :=
  ⟨classifier_contract.2.1 (fun _ => some "4 stars") "hi" "4 stars" rfl,
    classifier_contract.2.2.2 (fun _ => none) ["a"] [] "b" rfl⟩

/-- The non-empty trimmed sentence fragments of one review text. -/
def split_sentences (text : String) : List String :=
  (sentence_fragments text).filter (fun s => !(chars s).isEmpty)

/-- C4: both sentence filters split each text on `.`, `!`, `?`, trim and
drop empty fragments; `filter_negative_sentences` keeps exactly the
surviving sentences containing a negative keyword and
`filter_positive_sentences` exactly the others, both in input order, so
the two outputs partition the surviving sentences. -/
theorem sentence_filters_partition (feedback_list : List String) :
    filter_negative_sentences feedback_list =
      (feedback_list.flatMap split_sentences).filter has_negative_keyword ∧
    filter_positive_sentences feedback_list =
      (feedback_list.flatMap split_sentences).filter
        (fun s => !has_negative_keyword s) ∧
    (filter_negative_sentences feedback_list ++
      filter_positive_sentences feedback_list).Perm
      (feedback_list.flatMap split_sentences) := by
  have hneg : filter_negative_sentences feedback_list =
      (feedback_list.flatMap split_sentences).filter has_negative_keyword := by
    rw [List.filter_flatMap]
    unfold filter_negative_sentences
    congr 1
    funext text
    unfold split_sentences
    rw [List.filter_filter]
    exact List.filter_congr (fun s _ => Bool.and_comm _ _)
  have hpos : filter_positive_sentences feedback_list =
      (feedback_list.flatMap split_sentences).filter
        (fun s => !has_negative_keyword s) := by
    rw [List.filter_flatMap]
    unfold filter_positive_sentences
    congr 1
    funext text
    unfold split_sentences
    rw [List.filter_filter]
    exact List.filter_congr (fun s _ => Bool.and_comm _ _)
  exact ⟨hneg, hpos, by
    rw [hneg, hpos]
    exact List.filter_append_perm _ _⟩

/-- C6: when the Gemini model handle is unconfigured the recommendation
function returns the literal unavailable message, for every network
oracle and every input — so the network call is never consulted in that
state. -/
theorem gemini_unconfigured (gc : String → Option GeminiResponse)
    (praise complaints : List String) :
    generate_recommendation_with_gemini false gc praise complaints =
      ["Gemini model is not available. Please check API key configuration."] := rfl

/-- Mapping then filtering is a `filterMap`, keeping order. -/
theorem map_map_filter_eq_filterMap {α β : Type} (p : α → Bool) (f : α → α) (g : α → β)
    (l : List α) :
    ((l.filter p).map f).map g =
      l.filterMap (fun a => if p a then some (g (f a)) else none) := by
  induction l with
  | nil => rfl
  | cons a l ih => by_cases h : p a <;> simp [h, ih, List.filterMap_cons]

/-- C7: when the configured model answers with a non-blocked response,
the function keeps exactly the lines of the stripped response text whose
stripped form starts with `*` or `-` (in order, each stripped of leading
`*`, `-` and spaces and of surrounding whitespace), and falls back to the
whole stripped response text as a single-element list when no line
matched. -/
theorem bullet_line_parsing (gc : String → Option GeminiResponse)
    (praise complaints : List String) (response : GeminiResponse)
    (hfb : has_specific_praise praise = true ∨ has_specific_complaints complaints = true)
    (hcall : gc (build_gemini_prompt praise complaints) = some response)
    (hparts : response.parts ≠ []) :
    (generate_recommendation_with_gemini true gc praise complaints =
      if parse_bullet_points (py_strip response.text) = [] then [py_strip response.text]
      else parse_bullet_points (py_strip response.text)) ∧
    (∀ t : String, parse_bullet_points t =
      ((split_chars (fun c => c == '\n') (chars t)).map ofChars).filterMap
        (fun line =>
          if starts_with_char '*' (py_strip line) || starts_with_char '-' (py_strip line)
          then some (py_strip (ofChars ((chars (py_strip line)).dropWhile
            (fun c => c == '*' || c == '-' || c == ' '))))
          else none)) := by
  constructor
  · have hfb' : (!has_specific_praise praise && !has_specific_complaints complaints) = false := by
      rcases hfb with h | h <;> simp [h]
    have hparts' : response.parts.isEmpty = false := List.isEmpty_eq_false.mpr hparts
    simp only [generate_recommendation_with_gemini, Bool.not_true, Bool.false_eq_true,
      if_false, hfb', hcall, hparts']
    cases hc : parse_bullet_points (py_strip response.text) with
    | nil => simp [List.isEmpty_iff, hc]
    | cons a l => simp [List.isEmpty_iff, hc]
  · intro t
    exact map_map_filter_eq_filterMap _ _ _ _

/-- Witness for C7 at a concrete response with two bullet lines and one
plain line. -/
theorem bullet_line_parsing_witness :
    generate_recommendation_with_gemini true
      (fun _ => some (GeminiResponse.mk ["p"] none "* do x\n- do y\nnote"))
      ["good"] ["bad"] = ["do x", "do y"] := by
  have h := (bullet_line_parsing
    (fun _ => some (GeminiResponse.mk ["p"] none "* do x\n- do y\nnote"))
    ["good"] ["bad"] (GeminiResponse.mk ["p"] none "* do x\n- do y\nnote")
    (Or.inl (by decide)) rfl (by decide)).1
  rw [h]
  decide

/-- C8: with a configured model and specific feedback, a blocked response
with a (truthy) block reason maps to the single-element safety-block
message naming the reason, a blocked response without one maps to the
generic could-not-be-generated message, and a raised call maps to the
generic API-error message; all cases return normally. -/
theorem gemini_failure_mapping (gc : String → Option GeminiResponse)
    (praise complaints : List String)
    (hfb : has_specific_praise praise = true ∨ has_specific_complaints complaints = true) :
    (∀ response reason, gc (build_gemini_prompt praise complaints) = some response →
      response.parts = [] → response.block_reason = some reason →
      generate_recommendation_with_gemini true gc praise complaints =
        ["Recommendation could not be generated due to a content safety block (" ++
          reason ++ ")."]) ∧
    (∀ response, gc (build_gemini_prompt praise complaints) = some response →
      response.parts = [] → response.block_reason = none →
      generate_recommendation_with_gemini true gc praise complaints =
        ["Recommendation could not be generated."]) ∧
    (gc (build_gemini_prompt praise complaints) = none →
      generate_recommendation_with_gemini true gc praise complaints =
        ["Could not generate AI recommendation due to an API error."]) := by
  have hfb' : (!has_specific_praise praise && !has_specific_complaints complaints) = false := by
    rcases hfb with h | h <;> simp [h]
  refine ⟨?_, ?_, ?_⟩
  · intro response reason hcall hempty hreason
    simp [generate_recommendation_with_gemini, hfb', hcall, hempty, hreason]
  · intro response hcall hempty hreason
    simp [generate_recommendation_with_gemini, hfb', hcall, hempty, hreason]
  · intro hcall
    simp [generate_recommendation_with_gemini, hfb', hcall]

/-- Witness for C8: a raising call maps to the API-error message. -/
theorem gemini_failure_mapping_witness :
    generate_recommendation_with_gemini true (fun _ => none) ["good"] [] =
      ["Could not generate AI recommendation due to an API error."] :=
  (gemini_failure_mapping (fun _ => none) ["good"] [] (Or.inl (by decide))).2.2 rfl

/-- C9: an empty review list short-circuits to the fixed record with
empty point lists and the literal string N/A in both remaining fields,
for every oracle — no external service is consulted. -/
theorem empty_reviews_result (sp summ : String → Option String) (gm : Bool)
    (gc : String → Option GeminiResponse) :
    analyze_reviews_with_ai sp summ gm gc [] =
      AnalysisResult.mk [] [] "N/A" (StrOrList.str "N/A") := rfl

/-- C10: with a configured model, when the praise list is empty or headed
by its placeholder and the complaints list is empty or headed by its
placeholder, the function returns the not-enough-feedback message for
every network oracle — the call is never made. -/
theorem no_specific_feedback_shortcircuit (gc : String → Option GeminiResponse)
    (praise complaints : List String)
    (hp : praise = [] ∨ praise.head? = some "No specific praise points found.")
    (hc : complaints = [] ∨ complaints.head? = some "No specific complaint points found.") :
    generate_recommendation_with_gemini true gc praise complaints =
      ["Not enough specific feedback was provided to generate a recommendation."] := by
  have hp' : has_specific_praise praise = false := by
    rcases hp with h | h
    · rw [h]; rfl
    · cases praise with
      | nil => rfl
      | cons p ps =>
        simp only [List.head?_cons, Option.some.injEq] at h
        simp [has_specific_praise, h, NO_PRAISE_MSG]
  have hc' : has_specific_complaints complaints = false := by
    rcases hc with h | h
    · rw [h]; rfl
    · cases complaints with
      | nil => rfl
      | cons c cs =>
        simp only [List.head?_cons, Option.some.injEq] at h
        simp [has_specific_complaints, h, NO_COMPLAINTS_MSG]
  simp [generate_recommendation_with_gemini, hp', hc']

/-- Witness for C10 at an empty praise list and a placeholder-headed
complaints list. -/
theorem no_specific_feedback_shortcircuit_witness :
    generate_recommendation_with_gemini true (fun _ => none) []
      ["No specific complaint points found."] =
      ["Not enough specific feedback was provided to generate a recommendation."] :=
  no_specific_feedback_shortcircuit (fun _ => none) []
    ["No specific complaint points found."] (Or.inl rfl) (Or.inr rfl)

/-- C1 (amended): for a non-empty review list, when at least one review
classifies successfully the rating suggestion is "Approximately X.XX out
of 5 stars." (trailing period included), X.XX being the arithmetic mean
of the collected ratings rounded half-to-even at two decimals; when no
review classifies successfully it is exactly "Could not determine
rating." -/
theorem overall_rating_format (sp summ : String → Option String) (gm : Bool)
    (gc : String → Option GeminiResponse) (reviews : List String) (h : reviews ≠ []) :
    ((classify_reviews sp reviews).1 ≠ [] →
      (analyze_reviews_with_ai sp summ gm gc reviews).overall_rating_suggestion =
        "Approximately " ++ format_mean (classify_reviews sp reviews).1 ++
          " out of 5 stars.") ∧
    ((classify_reviews sp reviews).1 = [] →
      (analyze_reviews_with_ai sp summ gm gc reviews).overall_rating_suggestion =
        "Could not determine rating.") := by
  have hR : reviews.isEmpty = false := List.isEmpty_eq_false.mpr h
  constructor
  · intro hne
    have hne' : (classify_reviews sp reviews).1.isEmpty = false :=
      List.isEmpty_eq_false.mpr hne
    simp [analyze_reviews_with_ai, hR, hne']
  · intro he
    simp [analyze_reviews_with_ai, hR, he]

/-- Witness for C1 at a classifier that labels every review 5 stars. -/
theorem overall_rating_format_witness :
    (analyze_reviews_with_ai (fun _ => some "5 stars") (fun _ => none) false (fun _ => none)
      ["great"]).overall_rating_suggestion =
      "Approximately " ++
        format_mean (classify_reviews (fun _ => some "5 stars") ["great"]).1 ++
        " out of 5 stars." :=
  (overall_rating_format (fun _ => some "5 stars") (fun _ => none) false (fun _ => none)
    ["great"] (by decide)).1 (by decide)

/-- Counterexample to C1 as stated: with every classification failing the
fallback string is "Could not determine rating.", not "Could not
determine rating from reviews."; and with one 5-star review the field
carries a trailing period absent from the claimed format. -/
theorem overall_rating_counterexample :
    ((analyze_reviews_with_ai (fun _ => none) (fun _ => none) false (fun _ => none)
        ["x"]).overall_rating_suggestion = "Could not determine rating." ∧
      (analyze_reviews_with_ai (fun _ => none) (fun _ => none) false (fun _ => none)
        ["x"]).overall_rating_suggestion ≠ "Could not determine rating from reviews.") ∧
    ((analyze_reviews_with_ai (fun _ => some "5 stars") (fun _ => none) false (fun _ => none)
        ["great"]).overall_rating_suggestion = "Approximately 5.00 out of 5 stars." ∧
      (analyze_reviews_with_ai (fun _ => some "5 stars") (fun _ => none) false (fun _ => none)
        ["great"]).overall_rating_suggestion ≠ "Approximately 5.00 out of 5 stars") := by
  decide

/-- C5 (amended): both summarizers return the literal "None" without
consulting the summarizer oracle when their filtered sentence set is
empty, and the literal "Could not generate summary." when the oracle
raises; for every NON-EMPTY review list the analysis wraps each summary
in a single-element list, substituting the exact placeholder string when
the summary is "None", so both point lists have length one (for the
empty review list both point lists are empty, see the counterexample). -/
theorem summary_fallbacks :
    (∀ (summ summ2 : String → Option String) (fl : List String),
      filter_positive_sentences fl = [] →
      summarize_praises summ fl = "None" ∧
        summarize_praises summ fl = summarize_praises summ2 fl) ∧
    (∀ (summ summ2 : String → Option String) (fl : List String),
      filter_negative_sentences fl = [] →
      summarize_pain_points summ fl = "None" ∧
        summarize_pain_points summ fl = summarize_pain_points summ2 fl) ∧
    (∀ (summ : String → Option String) (fl : List String),
      filter_positive_sentences fl ≠ [] →
      summ (String.intercalate ". " (filter_positive_sentences fl)) = none →
      summarize_praises summ fl = "Could not generate summary.") ∧
    (∀ (summ : String → Option String) (fl : List String),
      filter_negative_sentences fl ≠ [] →
      summ (String.intercalate ". " (filter_negative_sentences fl)) = none →
      summarize_pain_points summ fl = "Could not generate summary.") ∧
    (∀ (sp summ : String → Option String) (gm : Bool)
      (gc : String → Option GeminiResponse) (reviews : List String), reviews ≠ [] →
      (analyze_reviews_with_ai sp summ gm gc reviews).top_praise_points.length = 1 ∧
      (analyze_reviews_with_ai sp summ gm gc reviews).top_complaint_points.length = 1 ∧
      (summarize_praises summ (classify_reviews sp reviews).2.1 ≠ "None" →
        (analyze_reviews_with_ai sp summ gm gc reviews).top_praise_points =
          [summarize_praises summ (classify_reviews sp reviews).2.1]) ∧
      (summarize_pain_points summ (classify_reviews sp reviews).2.2 ≠ "None" →
        (analyze_reviews_with_ai sp summ gm gc reviews).top_complaint_points =
          [summarize_pain_points summ (classify_reviews sp reviews).2.2]) ∧
      (summarize_praises summ (classify_reviews sp reviews).2.1 = "None" →
        (analyze_reviews_with_ai sp summ gm gc reviews).top_praise_points =
          ["No specific praise points found."]) ∧
      (summarize_pain_points summ (classify_reviews sp reviews).2.2 = "None" →
        (analyze_reviews_with_ai sp summ gm gc reviews).top_complaint_points =
          ["No specific complaint points found."])) := by
  refine ⟨?_, ?_, ?_, ?_, ?_⟩
  · intro summ summ2 fl h
    constructor <;> simp [summarize_praises, h]
  · intro summ summ2 fl h
    constructor <;> simp [summarize_pain_points, h]
  · intro summ fl hne hcall
    have hne' : (filter_positive_sentences fl).isEmpty = false :=
      List.isEmpty_eq_false.mpr hne
    simp [summarize_praises, hne', hcall]
  · intro summ fl hne hcall
    have hne' : (filter_negative_sentences fl).isEmpty = false :=
      List.isEmpty_eq_false.mpr hne
    simp [summarize_pain_points, hne', hcall]
  · intro sp summ gm gc reviews h
    have hR : reviews.isEmpty = false := List.isEmpty_eq_false.mpr h
    refine ⟨?_, ?_, ?_, ?_, ?_, ?_⟩
    · simp only [analyze_reviews_with_ai, hR, Bool.false_eq_true, if_false]
      split <;> rfl
    · simp only [analyze_reviews_with_ai, hR, Bool.false_eq_true, if_false]
      split <;> rfl
    · intro hne
      have hb : (summarize_praises summ (classify_reviews sp reviews).2.1 != "None") = true :=
        bne_iff_ne.mpr hne
      simp [analyze_reviews_with_ai, hR, hb]
    · intro hne
      have hb : (summarize_pain_points summ (classify_reviews sp reviews).2.2 != "None") = true :=
        bne_iff_ne.mpr hne
      simp [analyze_reviews_with_ai, hR, hb]
    · intro hnone
      simp [analyze_reviews_with_ai, hR, hnone]
    · intro hnone
      simp [analyze_reviews_with_ai, hR, hnone]

/-- Witness for C5: an all-negative review yields "None" praise without
any oracle, a raising summarizer yields the fallback summary, a
non-empty review list yields a single praise point, and a non-"None"
summary value (here the fallback summary) is itself the wrapped
element. -/
theorem summary_fallbacks_witness :
    summarize_praises (fun _ => some "S") ["broken"] = "None" ∧
    summarize_pain_points (fun _ => none) ["broken"] = "Could not generate summary." ∧
    (analyze_reviews_with_ai (fun _ => none) (fun _ => none) false (fun _ => none)
      ["x"]).top_praise_points.length = 1 ∧
    (analyze_reviews_with_ai (fun _ => some "5 stars") (fun _ => none) false (fun _ => none)
      ["great"]).top_praise_points = ["Could not generate summary."] :=
  ⟨(summary_fallbacks.1 (fun _ => some "S") (fun _ => some "S") ["broken"] (by decide)).1,
    summary_fallbacks.2.2.2.1 (fun _ => none) ["broken"] (by decide) rfl,
    (summary_fallbacks.2.2.2.2 (fun _ => none) (fun _ => none) false (fun _ => none)
      ["x"] (by decide)).1,
    ((summary_fallbacks.2.2.2.2 (fun _ => some "5 stars") (fun _ => none) false (fun _ => none)
      ["great"] (by decide)).2.2.1 (by decide)).trans (by decide)⟩

/-- Counterexample to C5 as stated: for the empty review list both point
lists are empty lists, so they are not "never empty". -/
theorem summary_wrap_counterexample :
    (analyze_reviews_with_ai (fun _ => none) (fun _ => none) false (fun _ => none)
      []).top_praise_points = [] ∧
    (analyze_reviews_with_ai (fun _ => none) (fun _ => none) false (fun _ => none)
      []).top_complaint_points = [] := by
  decide

end ReviewAnalyzer
